import Mathlib

/-!
Shallow embedding of the GhostLink-BT transport core (src/src/protocol.py,
src/src/encryption.py, src/src/bluetooth_client.py, src/src/bluetooth_server.py,
src/src/config.py) and proofs about the spec's claims.

Bytes are modelled as `List Nat` with each element below 256; machine
arithmetic uses explicit `% 2^w`.
-/

deriving instance DecidableEq for Except

namespace GhostLink

/-- Big-endian encoding of `v` into `n` bytes (mirrors `struct.pack` with
`!B`/`!I` fields and the 8-byte length suffix of SHA-256 padding). -/
def toBytesBE : Nat → Nat → List Nat
  | 0, _ => []
  | k + 1, v => (v >>> (8 * k)) % 256 :: toBytesBE k v

/-- Big-endian decoding of a byte list (mirrors `struct.unpack` of `!I`). -/
def fromBytesBE (l : List Nat) : Nat :=
  l.foldl (fun acc b => acc * 256 + b) 0

/- ### SHA-256 (hashlib.sha256(payload).digest()), RFC 6234 -/

/-- 32-bit right rotation. -/
def rotr32 (n x : Nat) : Nat :=
  ((x >>> n) ||| (x <<< (32 - n))) % 4294967296

/-- 32-bit bitwise complement. -/
def not32 (x : Nat) : Nat := x ^^^ 4294967295

def ch32 (x y z : Nat) : Nat := (x &&& y) ^^^ (not32 x &&& z)

def maj32 (x y z : Nat) : Nat := (x &&& y) ^^^ (x &&& z) ^^^ (y &&& z)

def bsig0 (x : Nat) : Nat := rotr32 2 x ^^^ rotr32 13 x ^^^ rotr32 22 x

def bsig1 (x : Nat) : Nat := rotr32 6 x ^^^ rotr32 11 x ^^^ rotr32 25 x

def ssig0 (x : Nat) : Nat := rotr32 7 x ^^^ rotr32 18 x ^^^ (x >>> 3)

def ssig1 (x : Nat) : Nat := rotr32 17 x ^^^ rotr32 19 x ^^^ (x >>> 10)

/-- The 64 SHA-256 round constants. -/
def sha256K : List Nat :=
  [1116352408, 1899447441, 3049323471, 3921009573, 961987163,
   1508970993, 2453635748, 2870763221, 3624381080, 310598401,
   607225278, 1426881987, 1925078388, 2162078206, 2614888103,
   3248222580, 3835390401, 4022224774, 264347078, 604807628,
   770255983, 1249150122, 1555081692, 1996064986, 2554220882,
   2821834349, 2952996808, 3210313671, 3336571891, 3584528711,
   113926993, 338241895, 666307205, 773529912, 1294757372,
   1396182291, 1695183700, 1986661051, 2177026350, 2456956037,
   2730485921, 2820302411, 3259730800, 3345764771, 3516065817,
   3600352804, 4094571909, 275423344, 430227734, 506948616,
   659060556, 883997877, 958139571, 1322822218, 1537002063,
   1747873779, 1955562222, 2024104815, 2227730452, 2361852424,
   2428436474, 2756734187, 3204031479, 3329325298]

/-- SHA-256 initial hash value. -/
def sha256H0 : List Nat :=
  [1779033703, 3144134277, 1013904242, 2773480762,
   1359893119, 2600822924, 528734635, 1541459225]

/-- SHA-256 padding: append 0x80, zero bytes to 56 mod 64, then the 64-bit
big-endian bit length. -/
def sha256Pad (msg : List Nat) : List Nat :=
  msg ++ [0x80] ++ List.replicate ((55 + 64 - msg.length % 64) % 64) 0
      ++ toBytesBE 8 (8 * msg.length)

/-- The 16 big-endian 32-bit words of one 64-byte block. -/
def blockWords (block : List Nat) : List Nat :=
  (List.range 16).map fun i => fromBytesBE ((block.drop (4 * i)).take 4)

/-- The 64-entry message schedule of one block. -/
def msgSchedule (block : List Nat) : Array Nat :=
  (List.range 64).foldl
    (fun w t =>
      if t < 16 then w.push ((blockWords block).getD t 0)
      else w.push ((ssig1 (w.getD (t - 2) 0) + w.getD (t - 7) 0 +
                    ssig0 (w.getD (t - 15) 0) + w.getD (t - 16) 0) % 4294967296))
    #[]

/-- One SHA-256 round on the eight working registers. -/
def sha256Round (kw : Nat × Nat) (s : List Nat) : List Nat :=
  match s with
  | [a, b, c, d, e, f, g, h] =>
    let t1 := (h + bsig1 e + ch32 e f g + kw.1 + kw.2) % 4294967296
    let t2 := (bsig0 a + maj32 a b c) % 4294967296
    [(t1 + t2) % 4294967296, a, b, c, (d + t1) % 4294967296, e, f, g]
  | s => s

/-- Compress one 64-byte block into the running hash. -/
def sha256Compress (hsh : List Nat) (block : List Nat) : List Nat :=
  let w := (msgSchedule block).toList
  let final := (sha256K.zip w).foldl (fun s kw => sha256Round kw s) hsh
  (hsh.zip final).map fun p => (p.1 + p.2) % 4294967296

/-- `hashlib.sha256(msg).digest()`: the 32 digest bytes of `msg`. -/
def sha256Bytes (msg : List Nat) : List Nat :=
  let padded := sha256Pad msg
  let nblocks := padded.length / 64
  let final := (List.range nblocks).foldl
    (fun h i => sha256Compress h ((padded.drop (64 * i)).take 64)) sha256H0
  final.flatMap (toBytesBE 4)

/- ### Configuration constants (src/src/config.py) -/

def BUFFER_SIZE : Nat := 4096

def MAX_PAYLOAD_SIZE : Nat := 10 * 1024 * 1024

def HEADER_SIZE : Nat := 1 + 4 + 32

/- ### Framing codec (src/src/protocol.py, ProtocolManager) -/

/-- `struct.Struct('!BI32s').pack(msg_type, payload_size, payload_hash)`:
one byte for the type, four big-endian bytes for the length, and the hash
padded or truncated to 32 bytes; `none` models `struct.error` when a field
does not fit its width. -/
def headerPack (msg_type payload_size : Nat) (payload_hash : List Nat) :
    Option (List Nat) :=
  if msg_type < 256 ∧ payload_size < 4294967296 then
    some ([msg_type] ++ toBytesBE 4 payload_size ++
          (payload_hash.take 32 ++ List.replicate (32 - payload_hash.length) 0))
  else none

/-- `struct.Struct('!BI32s').unpack(data)`: requires exactly 37 bytes and
returns `(msg_type, payload_size, expected_hash)`. -/
def headerUnpack (data : List Nat) : Option (Nat × Nat × List Nat) :=
  if data.length = HEADER_SIZE then
    some (data.headI, fromBytesBE ((data.drop 1).take 4), data.drop 5)
  else none

/-- `ProtocolManager.create_packet(msg_type, payload)`:
`header + payload` with the header packed from the length and SHA-256 of
the payload. -/
def create_packet (msg_type : Nat) (payload : List Nat) : Option (List Nat) :=
  (headerPack msg_type payload.length (sha256Bytes payload)).map (· ++ payload)

/-- A blocking socket's incoming byte stream, modelled as the byte list the
peer sends before closing; `recv(n)` yields up to `n` bytes off the front,
and an empty chunk signals the close. -/
def recv_loop (stream data : List Nat) (num_bytes : Nat) :
    Option (List Nat) × List Nat :=
  if h1 : data.length < num_bytes then
    if h2 : stream.isEmpty then
      (none, stream)
    else
      recv_loop (stream.drop (min BUFFER_SIZE (num_bytes - data.length)))
        (data ++ stream.take (min BUFFER_SIZE (num_bytes - data.length)))
        num_bytes
  else (some data, stream)
termination_by stream.length
decreasing_by
  simp only [List.length_drop]
  have hs : stream.length ≠ 0 := by
    simpa [List.isEmpty_iff_length_eq_zero] using h2
  have hb : 0 < min BUFFER_SIZE (num_bytes - data.length) := by
    simp [BUFFER_SIZE]; omega
  omega

/-- `ProtocolManager._recv_all(sock, num_bytes)`: loops `recv` in
`BUFFER_SIZE`-bounded chunks until `num_bytes` bytes are collected, and
returns `None` when the stream closes first (before any data or mid-read).
Returns the read result together with the remaining stream. -/
def recv_all (stream : List Nat) (num_bytes : Nat) :
    Option (List Nat) × List Nat :=
  recv_loop stream [] num_bytes

/-- Python truthiness of an `Optional[bytes]` value: `None` and the empty
byte string are both falsy. -/
def pyFalsy : Option (List Nat) → Bool
  | none => true
  | some l => l.isEmpty

/-- The exceptions `ProtocolManager.receive_message` can raise. -/
inductive RecvError
  | connectionClosed (msg : String)
  | integrityError (msg : String)
  | protocolError (msg : String)
deriving DecidableEq, Repr

/-- `str(e)` of a raised `RecvError`. -/
def RecvError.text : RecvError → String
  | .connectionClosed m => m
  | .integrityError m => m
  | .protocolError m => m

/-- `ProtocolManager.receive_message(sock)`: reads the 37-byte header,
unpacks it, reads `payload_size` payload bytes, verifies the SHA-256 hash,
and returns `(msg_type, payload)` together with the remaining stream.
The guards `if not header_data` / `if not payload_data` use Python
truthiness, so an empty read result is treated like a closed socket. -/
def receive_message (stream : List Nat) :
    Except RecvError ((Nat × List Nat) × List Nat) :=
  let r1 := recv_all stream HEADER_SIZE
  if pyFalsy r1.1 then
    .error (.connectionClosed "Socket closed while reading header.")
  else
    match headerUnpack (r1.1.getD []) with
    | none => .error (.protocolError "Invalid header format.")
    | some (msg_type, payload_size, expected_hash) =>
      let r2 := recv_all r1.2 payload_size
      if pyFalsy r2.1 then
        .error (.connectionClosed "Socket closed while reading payload.")
      else
        let payload_data := r2.1.getD []
        if sha256Bytes payload_data ≠ expected_hash then
          .error (.integrityError "Payload hash verification failed.")
        else
          .ok ((msg_type, payload_data), r2.2)

/- ### Cipher envelope (src/src/encryption.py, EncryptionManager) -/

/-- The underlying `cryptography.fernet.Fernet` cipher for one key, kept
abstract: `enc` is `Fernet.encrypt` (`.error` models a raised exception)
and `dec` is `Fernet.decrypt` (`.error true` models `InvalidToken`,
`.error false` any other exception). -/
structure Cipher where
  enc : List Nat → Except String (List Nat)
  dec : List Nat → Except (Bool × String) (List Nat)

/-- `EncryptionManager.encrypt(data)`: empty input short-circuits to empty
output; otherwise `Fernet.encrypt`, re-raising any failure. -/
def EM_encrypt (c : Cipher) (data : List Nat) : Except String (List Nat) :=
  if data.isEmpty then .ok []
  else c.enc data

/-- `EncryptionManager.decrypt(token)`: empty token short-circuits to empty
plaintext; otherwise `Fernet.decrypt`, turning `InvalidToken` into
`ValueError("Decryption failed: Invalid token.")` and re-raising anything
else. -/
def EM_decrypt (c : Cipher) (token : List Nat) : Except String (List Nat) :=
  if token.isEmpty then .ok []
  else
    match c.dec token with
    | .ok plain => .ok plain
    | .error (true, _) => .error "Decryption failed: Invalid token."
    | .error (false, m) => .error m

/- ### Receive loops of the two engines
(src/src/bluetooth_client.py BluetoothClient.start,
 src/src/bluetooth_server.py BluetoothServer._handle_client) -/

/-- Outcome of one pass of an engine's inner receive loop body:
`delivered` means the message callback was invoked and the loop moves to
the next frame; `dropped` means decryption raised, the error was logged,
the callback was not invoked, and the loop moves to the next frame;
`sessionEnd` means `receive_message` raised out of the loop. -/
inductive StepResult
  | delivered (msg_type : Nat) (decrypted : List Nat) (rest : List Nat)
  | dropped (rest : List Nat)
  | sessionEnd (e : RecvError)
deriving DecidableEq, Repr

/-- True when the outcome keeps reading on the same connection. -/
def StepResult.continuesSession : StepResult → Bool
  | .delivered _ _ _ => true
  | .dropped _ => true
  | .sessionEnd _ => false

/-- One pass of `BluetoothClient.start`'s inner `while self.running` body:
`receive_message`, then `decrypt` and the callback inside a
`try/except Exception` that only logs. -/
def clientStep (c : Cipher) (stream : List Nat) : StepResult :=
  match receive_message stream with
  | .error e => .sessionEnd e
  | .ok ((msg_type, payload), rest) =>
    match EM_decrypt c payload with
    | .ok decrypted => .delivered msg_type decrypted rest
    | .error _ => .dropped rest

/-- One pass of `BluetoothServer._handle_client`'s `while` body: the same
`receive_message`, then `decrypt` and the callback inside a
`try/except Exception` that only logs. -/
def serverStep (c : Cipher) (stream : List Nat) : StepResult :=
  match receive_message stream with
  | .error e => .sessionEnd e
  | .ok ((msg_type, payload), rest) =>
    match EM_decrypt c payload with
    | .ok decrypted => .delivered msg_type decrypted rest
    | .error _ => .dropped rest

/- ### Closed form of the chunked read loop -/

theorem toBytesBE_length (n v : Nat) : (toBytesBE n v).length = n := by
  induction n generalizing v with
  | zero => simp [toBytesBE]
  | succ k ih => simp [toBytesBE, ih]

theorem fromBytesBE_toBytesBE4 (v : Nat) (h : v < 4294967296) :
    fromBytesBE (toBytesBE 4 v) = v := by
  simp only [toBytesBE, fromBytesBE, List.foldl_cons, List.foldl_nil,
    Nat.shiftRight_eq_div_pow]
  omega

theorem recv_loop_eq (stream data : List Nat) (num_bytes : Nat) :
    recv_loop stream data num_bytes =
      if num_bytes ≤ data.length then (some data, stream)
      else if num_bytes - data.length ≤ stream.length then
        (some (data ++ stream.take (num_bytes - data.length)),
         stream.drop (num_bytes - data.length))
      else (none, []) := by
  induction stream, data, num_bytes using recv_loop.induct with
  | case1 stream data num_bytes h1 h2 =>
    have hs : stream = [] := by simpa [List.isEmpty_iff] using h2
    subst hs
    rw [recv_loop, dif_pos h1, dif_pos h2, if_neg (by omega),
      if_neg (by simp only [List.length_nil, Nat.le_zero]; omega)]
  | case2 stream data num_bytes h1 h2 ih =>
    have hs : 0 < stream.length := by
      cases stream with
      | nil => simp at h2
      | cons a l => simp
    rw [recv_loop, dif_pos h1, dif_neg h2, ih]
    simp only [BUFFER_SIZE, List.length_append, List.length_take,
      List.length_drop]
    split_ifs with hA hB hC hD hE hF hG hH <;>
      first
      | rfl
      | omega
      | (have hk : min 4096 (num_bytes - data.length) =
            num_bytes - data.length := by omega
         rw [hk])
      | (have hmin : min (min 4096 (num_bytes - data.length)) stream.length =
             min 4096 (num_bytes - data.length) := by omega
         rw [hmin, List.append_assoc, List.drop_drop, ← List.take_add]
         have hjoin : min 4096 (num_bytes - data.length) +
             (num_bytes - (data.length +
               min 4096 (num_bytes - data.length))) =
             num_bytes - data.length := by omega
         rw [hjoin])
  | case3 stream data num_bytes h1 =>
    rw [recv_loop, dif_neg h1, if_pos (by omega)]

theorem recv_all_eq (stream : List Nat) (n : Nat) :
    recv_all stream n =
      if n ≤ stream.length then (some (stream.take n), stream.drop n)
      else (none, []) := by
  rw [recv_all, recv_loop_eq]
  by_cases h0 : n = 0
  · simp [h0]
  · simp only [List.length_nil, Nat.le_zero, h0, if_false, Nat.sub_zero,
      List.nil_append]

theorem receive_message_short (s : List Nat) (h : s.length < HEADER_SIZE) :
    receive_message s =
      .error (.connectionClosed "Socket closed while reading header.") := by
  have e1 : recv_all s HEADER_SIZE = (none, []) := by
    rw [recv_all_eq, if_neg (by omega)]
  simp [receive_message, e1, pyFalsy]

theorem receive_message_eq (s : List Nat) (h37 : HEADER_SIZE ≤ s.length) :
    receive_message s =
      if fromBytesBE (((s.take HEADER_SIZE).drop 1).take 4) = 0 ∨
          (s.drop HEADER_SIZE).length <
            fromBytesBE (((s.take HEADER_SIZE).drop 1).take 4) then
        .error (.connectionClosed "Socket closed while reading payload.")
      else if sha256Bytes ((s.drop HEADER_SIZE).take
              (fromBytesBE (((s.take HEADER_SIZE).drop 1).take 4))) ≠
            (s.take HEADER_SIZE).drop 5 then
        .error (.integrityError "Payload hash verification failed.")
      else
        .ok (((s.take HEADER_SIZE).headI,
              (s.drop HEADER_SIZE).take
                (fromBytesBE (((s.take HEADER_SIZE).drop 1).take 4))),
             (s.drop HEADER_SIZE).drop
               (fromBytesBE (((s.take HEADER_SIZE).drop 1).take 4))) := by
  have e1 : recv_all s HEADER_SIZE = (some (s.take HEADER_SIZE), s.drop HEADER_SIZE) := by
    rw [recv_all_eq, if_pos h37]
  have hlen37 : (s.take HEADER_SIZE).length = HEADER_SIZE := by
    rw [List.length_take]; omega
  have hne : s.take HEADER_SIZE ≠ [] := by
    intro hnil
    rw [hnil] at hlen37
    simp [HEADER_SIZE] at hlen37
  have hfal : pyFalsy (some (s.take HEADER_SIZE)) = false := by
    cases hx : s.take HEADER_SIZE with
    | nil => exact absurd hx hne
    | cons a l => simp [pyFalsy]
  have hunp : headerUnpack (s.take HEADER_SIZE) =
      some ((s.take HEADER_SIZE).headI,
            fromBytesBE (((s.take HEADER_SIZE).drop 1).take 4),
            (s.take HEADER_SIZE).drop 5) := by
    rw [headerUnpack, if_pos hlen37]
  simp only [receive_message, e1, hfal, Bool.false_eq_true, if_false,
    Option.getD_some, hunp]
  set size := fromBytesBE (((s.take HEADER_SIZE).drop 1).take 4) with hsize
  by_cases hbig : (s.drop HEADER_SIZE).length < size
  · have e2 : recv_all (s.drop HEADER_SIZE) size = (none, []) := by
      rw [recv_all_eq, if_neg (by omega)]
    rw [e2, if_pos (Or.inr hbig)]
    rfl
  · have e2 : recv_all (s.drop HEADER_SIZE) size =
        (some ((s.drop HEADER_SIZE).take size),
         (s.drop HEADER_SIZE).drop size) := by
      rw [recv_all_eq, if_pos (by omega)]
    rw [e2]
    by_cases h0 : size = 0
    · rw [if_pos (Or.inl h0), h0]
      simp [pyFalsy]
    · have hfal2 : pyFalsy (some ((s.drop HEADER_SIZE).take size)) = false := by
        cases hx : (s.drop HEADER_SIZE).take size with
        | nil =>
          have := congrArg List.length hx
          rw [List.length_take] at this
          simp only [List.length_nil] at this
          omega
        | cons a l => simp [pyFalsy]
      simp only [hfal2, Bool.false_eq_true, if_false, Option.getD_some]
      have hcond : ¬(size = 0 ∨ (s.drop HEADER_SIZE).length < size) := by
        push_neg
        exact ⟨h0, by omega⟩
      rw [if_neg hcond]

theorem receive_message_rest_lt {s : List Nat} {m : Nat × List Nat}
    {rest : List Nat} (h : receive_message s = .ok (m, rest)) :
    rest.length < s.length := by
  by_cases h37 : HEADER_SIZE ≤ s.length
  · rw [receive_message_eq s h37] at h
    split_ifs at h with hc hh
    simp only [Except.ok.injEq, Prod.mk.injEq] at h
    obtain ⟨-, hrest⟩ := h
    rw [← hrest]
    simp only [List.length_drop, HEADER_SIZE] at *
    omega
  · rw [receive_message_short s (by omega)] at h
    exact absurd h (by simp)

/- ### Connection engine, initiator role (src/src/bluetooth_client.py) -/

/-- The client's inner `while self.running` receive loop run to completion
on one connection's incoming bytes: the `(type, plaintext)` pairs handed to
`on_message_received` in order, and the exception that ends the session. -/
def runSession (c : Cipher) (stream : List Nat) :
    List (Nat × List Nat) × RecvError :=
  match hrec : receive_message stream with
  | .error e => ([], e)
  | .ok ((msg_type, payload), rest) =>
    match EM_decrypt c payload with
    | .ok decrypted =>
      let r := runSession c rest
      ((msg_type, decrypted) :: r.1, r.2)
    | .error _ => runSession c rest
termination_by stream.length
decreasing_by
  all_goals exact receive_message_rest_lt hrec

/-- A status callback invocation `on_status_changed(status, detail)`. -/
inductive StatusEvent
  | connecting (detail : String)
  | connected (detail : String)
  | disconnected (detail : String)
deriving DecidableEq, Repr

/-- Whether a `Disconnected` status event was emitted. -/
def hasDisconnected (evs : List StatusEvent) : Bool :=
  evs.any fun e =>
    match e with
    | .disconnected _ => true
    | _ => false

/-- The observable effects of one pass of the client's outer retry loop:
status events emitted in order, messages delivered to the callback, whether
the fixed 2-second backoff sleep ran, and whether the socket was closed. -/
structure IterTrace where
  events : List StatusEvent
  delivered : List (Nat × List Nat)
  slept : Bool
  sockClosed : Bool
deriving DecidableEq, Repr

/-- One pass of the outer `while self.running` body of
`BluetoothClient.start`. `connectErr = some e` models the socket
creation/connect raising an `OSError` with text `e` (e.g. connection
refused); on success the peer's bytes for this connection are `stream`.
A raised `ConnectionClosed` is caught by the dedicated handler, which only
logs; every other exception reaches the generic handler, which emits
`("Disconnected", "Retry: " + str(e))` and sleeps the backoff. The
`finally` block always closes the socket. -/
def clientIteration (mac : String) (c : Cipher) (connectErr : Option String)
    (stream : List Nat) : IterTrace :=
  match connectErr with
  | some e =>
    { events := [.connecting mac, .disconnected ("Retry: " ++ e)]
      delivered := [], slept := true, sockClosed := true }
  | none =>
    match runSession c stream with
    | (msgs, .connectionClosed _) =>
      { events := [.connecting mac, .connected mac]
        delivered := msgs, slept := false, sockClosed := true }
    | (msgs, e) =>
      { events := [.connecting mac, .connected mac,
                   .disconnected ("Retry: " ++ e.text)]
        delivered := msgs, slept := true, sockClosed := true }

/-- The environment of one pass of the retry loop; `stopDuring` is true
when `stop()` set `running` to false during this pass, making the `finally`
block break out of the loop. -/
structure IterInput where
  connectErr : Option String
  stream : List Nat
  stopDuring : Bool

/-- `BluetoothClient.start`'s outer retry loop across successive
connection attempts: one pass per input, stopping only after a pass during
which `stop()` cleared `running`. -/
def clientRun (mac : String) (c : Cipher) : List IterInput → List IterTrace
  | [] => []
  | i :: rest =>
    clientIteration mac c i.connectErr i.stream ::
      if i.stopDuring then [] else clientRun mac c rest

/- ### Send path (ProtocolManager.send_message and the engines) -/

/-- `ProtocolManager.send_message(sock, msg_type, payload)`: frame with
`create_packet`, then `sock.sendall`. A `struct.error` from packing
propagates as-is; an `OSError` from the write (`writeOk = false`) is
re-raised as `ConnectionClosed`. On success the value is the packet put on
the wire. -/
def proto_send (msg_type : Nat) (payload : List Nat) (writeOk : Bool) :
    Except String (List Nat) :=
  match create_packet msg_type payload with
  | none => .error "struct.error"
  | some packet =>
    if writeOk then .ok packet
    else .error "Socket connection failed during send."

/-- The `try` body shared by `BluetoothClient.send_message` and
`BluetoothServer.send_message`: encrypt, then frame-and-write. -/
def send_body (c : Cipher) (writeOk : Bool) (msg_type : Nat)
    (data : List Nat) : Except String (List Nat) := do
  let encrypted ← EM_encrypt c data
  proto_send msg_type encrypted writeOk

/-- What a `send_message` call did: returned silently because
`self.client_sock` is unset, wrote a packet, or caught an exception and
logged `Send failed: ...`. -/
inductive SendEffect
  | earlyReturn
  | sent (packet : List Nat)
  | loggedSendError (msg : String)
deriving DecidableEq, Repr

/-- The log lines a `send_message` call produced. -/
def SendEffect.logs : SendEffect → List String
  | .loggedSendError m => [m]
  | _ => []

/-- `BluetoothClient.send_message(msg_type, data)`: returns at once when no
client socket is set; otherwise runs the body inside a
`try/except Exception` whose handler only logs. The outer `Except` layer
carries any exception the call would raise to its caller. -/
def client_send (c : Cipher) (hasSock writeOk : Bool) (msg_type : Nat)
    (data : List Nat) : Except String SendEffect :=
  if !hasSock then .ok .earlyReturn
  else
    match send_body c writeOk msg_type data with
    | .ok packet => .ok (.sent packet)
    | .error e => .ok (.loggedSendError ("Send failed: " ++ e))

/-- `BluetoothServer.send_message(msg_type, data)`: identical structure to
the client's. -/
def server_send (c : Cipher) (hasSock writeOk : Bool) (msg_type : Nat)
    (data : List Nat) : Except String SendEffect :=
  if !hasSock then .ok .earlyReturn
  else
    match send_body c writeOk msg_type data with
    | .ok packet => .ok (.sent packet)
    | .error e => .ok (.loggedSendError ("Send failed: " ++ e))

/- ### Packet structure lemmas -/

theorem sha256Round_length (kw : Nat × Nat) (s : List Nat)
    (h : s.length = 8) : (sha256Round kw s).length = 8 := by
  rcases s with _ | ⟨a, _ | ⟨b, _ | ⟨c, _ | ⟨d, _ | ⟨e, _ | ⟨f, _ | ⟨g,
    _ | ⟨h8, _ | ⟨x, t⟩⟩⟩⟩⟩⟩⟩⟩⟩ <;>
    first
    | rfl
    | (simp at h)

theorem foldl_sha256Round_length (l : List (Nat × Nat)) (s : List Nat)
    (h : s.length = 8) :
    (l.foldl (fun acc kw => sha256Round kw acc) s).length = 8 := by
  induction l generalizing s with
  | nil => simpa
  | cons kw l ih => exact ih _ (sha256Round_length kw s h)

theorem sha256Compress_length (hsh block : List Nat) (h : hsh.length = 8) :
    (sha256Compress hsh block).length = 8 := by
  have hf := foldl_sha256Round_length
    (sha256K.zip (msgSchedule block).toList) hsh h
  simp only [sha256Compress, List.length_map, List.length_zip, h, hf]
  omega

theorem foldl_sha256Compress_length (l : List Nat) (blocks : Nat → List Nat)
    (H : List Nat) (h : H.length = 8) :
    (l.foldl (fun acc i => sha256Compress acc (blocks i)) H).length = 8 := by
  induction l generalizing H with
  | nil => simpa
  | cons i l ih => exact ih _ (sha256Compress_length _ _ h)

theorem flatMap_toBytesBE4_length (l : List Nat) :
    (l.flatMap (toBytesBE 4)).length = 4 * l.length := by
  induction l with
  | nil => simp
  | cons a l ih =>
    simp [toBytesBE_length, ih]
    omega

theorem sha256Bytes_length (msg : List Nat) : (sha256Bytes msg).length = 32 := by
  have h8 : (sha256H0 : List Nat).length = 8 := by rfl
  have hfold := foldl_sha256Compress_length
    (List.range ((sha256Pad msg).length / 64))
    (fun i => ((sha256Pad msg).drop (64 * i)).take 64) sha256H0 h8
  simp only [sha256Bytes, flatMap_toBytesBE4_length, hfold]

theorem create_packet_eq (t : Nat) (p : List Nat) (ht : t < 256)
    (hp : p.length < 4294967296) :
    create_packet t p =
      some ([t] ++ toBytesBE 4 p.length ++ sha256Bytes p ++ p) := by
  have h32 := sha256Bytes_length p
  rw [create_packet, headerPack, if_pos ⟨ht, hp⟩]
  have htake : (sha256Bytes p).take 32 = sha256Bytes p := by
    rw [← h32, List.take_length]
  have hrep : List.replicate (32 - (sha256Bytes p).length) (0 : Nat) = [] := by
    rw [h32]
    rfl
  simp [htake, hrep]

theorem header_length (t : Nat) (p : List Nat) :
    ([t] ++ toBytesBE 4 p.length ++ sha256Bytes p).length = HEADER_SIZE := by
  simp [toBytesBE_length, sha256Bytes_length, HEADER_SIZE]

theorem packet_take_header (t : Nat) (p : List Nat) :
    ([t] ++ toBytesBE 4 p.length ++ sha256Bytes p ++ p).take HEADER_SIZE =
      [t] ++ toBytesBE 4 p.length ++ sha256Bytes p := by
  have hassoc : [t] ++ toBytesBE 4 p.length ++ sha256Bytes p ++ p =
      ([t] ++ toBytesBE 4 p.length ++ sha256Bytes p) ++ p := by
    simp [List.append_assoc]
  rw [hassoc, ← header_length t p, List.take_left]

theorem packet_drop_header (t : Nat) (p : List Nat) :
    ([t] ++ toBytesBE 4 p.length ++ sha256Bytes p ++ p).drop HEADER_SIZE = p := by
  have hassoc : [t] ++ toBytesBE 4 p.length ++ sha256Bytes p ++ p =
      ([t] ++ toBytesBE 4 p.length ++ sha256Bytes p) ++ p := by
    simp [List.append_assoc]
  rw [hassoc, ← header_length t p, List.drop_left]

theorem headerUnpack_packet (t : Nat) (p : List Nat)
    (hp : p.length < 4294967296) :
    headerUnpack ([t] ++ toBytesBE 4 p.length ++ sha256Bytes p) =
      some (t, p.length, sha256Bytes p) := by
  have h4 := toBytesBE_length 4 p.length
  rw [headerUnpack, if_pos (header_length t p)]
  have hA : [t] ++ toBytesBE 4 p.length ++ sha256Bytes p =
      t :: (toBytesBE 4 p.length ++ sha256Bytes p) := by simp
  rw [hA]
  have hhead : (t :: (toBytesBE 4 p.length ++ sha256Bytes p)).headI = t := rfl
  have hdrop1 : (t :: (toBytesBE 4 p.length ++ sha256Bytes p)).drop 1 =
      toBytesBE 4 p.length ++ sha256Bytes p := rfl
  have htake4 : (toBytesBE 4 p.length ++ sha256Bytes p).take 4 =
      toBytesBE 4 p.length := List.take_left' h4
  have hdrop5 : (t :: (toBytesBE 4 p.length ++ sha256Bytes p)).drop 5 =
      sha256Bytes p := by
    have hstep : (t :: (toBytesBE 4 p.length ++ sha256Bytes p)).drop 5 =
        (toBytesBE 4 p.length ++ sha256Bytes p).drop 4 := rfl
    rw [hstep]
    exact List.drop_left' h4
  rw [hhead, hdrop1, htake4, hdrop5, fromBytesBE_toBytesBE4 _ hp]

/- ### Unfolding lemmas for the session loop -/

theorem runSession_error {c : Cipher} {s : List Nat} {e : RecvError}
    (h : receive_message s = .error e) : runSession c s = ([], e) := by
  rw [runSession]
  split <;> simp_all

theorem runSession_deliver {c : Cipher} {s : List Nat} {msg_type : Nat}
    {payload rest decrypted : List Nat}
    (h : receive_message s = .ok ((msg_type, payload), rest))
    (hd : EM_decrypt c payload = .ok decrypted) :
    runSession c s =
      ((msg_type, decrypted) :: (runSession c rest).1,
       (runSession c rest).2) := by
  rw [runSession]
  split <;> simp_all

theorem runSession_drop {c : Cipher} {s : List Nat} {msg_type : Nat}
    {payload rest : List Nat} {e : String}
    (h : receive_message s = .ok ((msg_type, payload), rest))
    (hd : EM_decrypt c payload = .error e) :
    runSession c s = runSession c rest := by
  rw [runSession]
  split <;> simp_all

/- ### Concrete ciphers for witnesses -/

/-- A toy well-behaved Fernet model: tokens are the plaintext prefixed by
one marker byte, so decryption inverts encryption and tokens are never
empty. -/
def cGood : Cipher where
  enc p := .ok (128 :: p)
  dec tok :=
    match tok with
    | 128 :: rest => .ok rest
    | _ => .error (true, "InvalidToken")

/-- A Fernet model under a wrong key: every decryption attempt raises
`InvalidToken`. -/
def cFail : Cipher where
  enc p := .ok (128 :: p)
  dec _ := .error (true, "InvalidToken")

/- ### Claims -/

/-- C4: for every payload byte string `p` (including the empty one) and
every valid key — modelled as a Fernet cipher whose decrypt inverts its
encrypt and whose tokens are never empty — decrypting the encryption of
`p` returns `p`; in particular the empty plaintext maps to the empty token
and back. -/
theorem C4_encrypt_decrypt_round_trip (c : Cipher)
    (hinv : ∀ p tok, c.enc p = .ok tok → c.dec tok = .ok p)
    (hne : ∀ p tok, c.enc p = .ok tok → tok ≠ [])
    (p tok : List Nat) (henc : EM_encrypt c p = .ok tok) :
    EM_decrypt c tok = .ok p ∧ (p = [] → tok = []) := by
  by_cases hp : p.isEmpty
  · have hpnil : p = [] := by simpa [List.isEmpty_iff] using hp
    subst hpnil
    have htok : tok = [] := by
      have := henc
      simp only [EM_encrypt, List.isEmpty_nil, if_true] at this
      simpa using this
    subst htok
    exact ⟨rfl, fun _ => rfl⟩
  · rw [EM_encrypt, if_neg (by simp [hp])] at henc
    have htokne : tok ≠ [] := hne p tok henc
    constructor
    · rw [EM_decrypt, if_neg (by simp [List.isEmpty_iff, htokne])]
      rw [hinv p tok henc]
    · intro hpnil
      exact absurd hpnil (by simpa [List.isEmpty_iff] using hp)

/-- C4 witness: the round trip at the concrete cipher `cGood`, payload
`[7]` and the empty payload. -/
theorem C4_encrypt_decrypt_round_trip_witness :
    (EM_decrypt cGood [128, 7] = .ok [7] ∧
      ([7] = ([] : List Nat) → [128, 7] = ([] : List Nat))) ∧
    (EM_decrypt cGood [] = .ok [] ∧
      (([] : List Nat) = [] → ([] : List Nat) = [])) := by
  constructor
  · exact C4_encrypt_decrypt_round_trip cGood
      (fun p tok h => by
        have htok : 128 :: p = tok := by simpa [cGood] using h
        rw [← htok]
        rfl)
      (fun p tok h => by
        have htok : 128 :: p = tok := by simpa [cGood] using h
        rw [← htok]
        simp)
      [7] [128, 7] (by rfl)
  · exact C4_encrypt_decrypt_round_trip cGood
      (fun p tok h => by
        have htok : 128 :: p = tok := by simpa [cGood] using h
        rw [← htok]
        rfl)
      (fun p tok h => by
        have htok : 128 :: p = tok := by simpa [cGood] using h
        rw [← htok]
        simp)
      [] [] (by rfl)

/-- C10: `decrypt` applied to the empty token returns the empty plaintext
for every key without consulting the underlying cipher, so an empty token
is never rejected even under a wrong key, and `decrypt` raises only for
non-empty tokens. -/
theorem C10_empty_token_fast_path :
    (∀ c : Cipher, EM_decrypt c [] = .ok []) ∧
    (∀ (c : Cipher) (tok : List Nat) (e : String),
      EM_decrypt c tok = .error e → tok ≠ []) := by
  constructor
  · intro c
    rfl
  · intro c tok e h hnil
    subst hnil
    simp [EM_decrypt] at h

/-- C10 witness: the empty token decrypts to the empty plaintext even
under the always-failing cipher `cFail`, while the non-empty token `[7]`
that `cFail` rejects is indeed non-empty. -/
theorem C10_empty_token_fast_path_witness :
    EM_decrypt cFail [] = .ok [] ∧ ([7] : List Nat) ≠ [] :=
  ⟨C10_empty_token_fast_path.1 cFail,
   C10_empty_token_fast_path.2 cFail [7]
     "Decryption failed: Invalid token." (by rfl)⟩

/-- C9 counterexample: with no active session, `send_message` returns at
once with no log line, contradicting the claim that the no-op is logged. -/
theorem C9_counterexample_silent_noop :
    client_send cGood false true 1 [7] = .ok .earlyReturn ∧
    server_send cGood false true 1 [7] = .ok .earlyReturn ∧
    SendEffect.earlyReturn.logs = ([] : List String) :=
  ⟨rfl, rfl, rfl⟩

/-- C9 (amended): `send_message` is a silent (unlogged) no-op when no
session socket is set; with a session it encrypts, then frames, then
writes, and any failure in that path is caught and logged — the call never
raises to its caller. -/
theorem C9_send_fire_and_forget (c : Cipher) (writeOk : Bool)
    (msg_type : Nat) (data : List Nat) :
    (client_send c false writeOk msg_type data = .ok .earlyReturn ∧
     server_send c false writeOk msg_type data = .ok .earlyReturn ∧
     SendEffect.earlyReturn.logs = []) ∧
    (∀ tok pkt, EM_encrypt c data = .ok tok →
      proto_send msg_type tok writeOk = .ok pkt →
      client_send c true writeOk msg_type data = .ok (.sent pkt) ∧
      server_send c true writeOk msg_type data = .ok (.sent pkt)) ∧
    (∀ e, send_body c writeOk msg_type data = .error e →
      client_send c true writeOk msg_type data =
        .ok (.loggedSendError ("Send failed: " ++ e)) ∧
      server_send c true writeOk msg_type data =
        .ok (.loggedSendError ("Send failed: " ++ e))) ∧
    (∀ hasSock, (client_send c hasSock writeOk msg_type data).isOk ∧
      (server_send c hasSock writeOk msg_type data).isOk) := by
  refine ⟨⟨rfl, rfl, rfl⟩, ?_, ?_, ?_⟩
  · intro tok pkt htok hpkt
    have hbody : send_body c writeOk msg_type data = .ok pkt := by
      rw [send_body, htok]
      simpa using hpkt
    constructor <;> simp [client_send, server_send, hbody]
  · intro e hbody
    constructor <;> simp [client_send, server_send, hbody]
  · intro hasSock
    cases hasSock
    · exact ⟨rfl, rfl⟩
    · constructor <;>
        · simp only [client_send, server_send, Bool.not_true,
            Bool.false_eq_true, if_false]
          cases send_body c writeOk msg_type data <;> rfl

/-- C9 witness: concrete sends through `cGood` — a failing write is
caught and logged, and the no-session call returns silently. -/
theorem C9_send_fire_and_forget_witness :
    (client_send cGood true false 1 [7] =
      .ok (.loggedSendError
        "Send failed: Socket connection failed during send.") ∧
     server_send cGood true false 1 [7] =
      .ok (.loggedSendError
        "Send failed: Socket connection failed during send.")) ∧
    client_send cGood false false 1 [7] = .ok .earlyReturn ∧
    (client_send cGood true false 1 [7]).isOk := by
  refine ⟨?_, ?_, ?_⟩
  · exact (C9_send_fire_and_forget cGood false 1 [7]).2.2.1
      "Socket connection failed during send." (by rfl)
  · exact (C9_send_fire_and_forget cGood false 1 [7]).1.1
  · exact ((C9_send_fire_and_forget cGood false 1 [7]).2.2.2 true).1

/-- C8: a received frame whose payload fails to decrypt is dropped — the
message callback is not invoked — and both the initiator's and the
listener's receive loops continue with the next frame instead of
crashing. -/
theorem C8_decrypt_failure_nonfatal (c : Cipher) (s : List Nat)
    (msg_type : Nat) (payload rest : List Nat) (e : String)
    (hrecv : receive_message s = .ok ((msg_type, payload), rest))
    (hdec : EM_decrypt c payload = .error e) :
    clientStep c s = .dropped rest ∧
    serverStep c s = .dropped rest ∧
    runSession c s = runSession c rest := by
  refine ⟨?_, ?_, runSession_drop hrecv hdec⟩ <;>
    simp [clientStep, serverStep, hrecv, hdec]

/-- C8 witness: a well-formed frame carrying token `[9]` read under the
always-failing cipher `cFail` is dropped by both engines and the loop
continues on the (here empty) remainder of the stream. -/
theorem C8_decrypt_failure_nonfatal_witness :
    clientStep cFail ([1] ++ toBytesBE 4 1 ++ sha256Bytes [9] ++ [9]) =
      .dropped [] ∧
    serverStep cFail ([1] ++ toBytesBE 4 1 ++ sha256Bytes [9] ++ [9]) =
      .dropped [] ∧
    runSession cFail ([1] ++ toBytesBE 4 1 ++ sha256Bytes [9] ++ [9]) =
      runSession cFail [] :=
  C8_decrypt_failure_nonfatal cFail _ 1 [9] []
    "Decryption failed: Invalid token."
    (by rw [receive_message_eq _ (by decide)]; decide) (by rfl)

/-- C5: decoding the header of `create_packet(type, payload)` yields
exactly `(type, len(payload), SHA-256(payload))`, and the bytes after the
header are the original payload. -/
theorem C5_framing_round_trip (t : Nat) (p : List Nat) (ht : t < 256)
    (hp : p.length < 4294967296) :
    ∃ pkt, create_packet t p = some pkt ∧
      headerUnpack (pkt.take HEADER_SIZE) =
        some (t, p.length, sha256Bytes p) ∧
      pkt.drop HEADER_SIZE = p := by
  refine ⟨[t] ++ toBytesBE 4 p.length ++ sha256Bytes p ++ p,
    create_packet_eq t p ht hp, ?_, packet_drop_header t p⟩
  rw [packet_take_header]
  exact headerUnpack_packet t p hp

/-- C5 witness: the framing round trip at type 1 and payload
`[104, 105]`. -/
theorem C5_framing_round_trip_witness :
    ∃ pkt, create_packet 1 [104, 105] = some pkt ∧
      headerUnpack (pkt.take HEADER_SIZE) =
        some (1, 2, sha256Bytes [104, 105]) ∧
      pkt.drop HEADER_SIZE = [104, 105] :=
  C5_framing_round_trip 1 [104, 105] (by decide) (by decide)

/-- C6: every packet `create_packet` produces has a header of exactly 37
bytes in big-endian layout whose hash field is the SHA-256 digest of the
payload and whose length field is the payload's byte count, followed by
the payload itself. -/
theorem C6_packet_wire_invariant (t : Nat) (p pkt : List Nat)
    (ht : t < 256) (hp : p.length < 4294967296)
    (hpkt : create_packet t p = some pkt) :
    (pkt.take HEADER_SIZE).length = HEADER_SIZE ∧
    pkt.take HEADER_SIZE = [t] ++ toBytesBE 4 p.length ++ sha256Bytes p ∧
    headerUnpack (pkt.take HEADER_SIZE) =
      some (t, p.length, sha256Bytes p) ∧
    pkt.drop HEADER_SIZE = p := by
  rw [create_packet_eq t p ht hp] at hpkt
  have hpkt2 : pkt = [t] ++ toBytesBE 4 p.length ++ sha256Bytes p ++ p := by
    simpa using hpkt.symm
  subst hpkt2
  refine ⟨?_, packet_take_header t p, ?_, packet_drop_header t p⟩
  · rw [packet_take_header]
    exact header_length t p
  · rw [packet_take_header]
    exact headerUnpack_packet t p hp

/-- C6 witness: the wire invariant at type 2 and payload `[104]`. -/
theorem C6_packet_wire_invariant_witness :
    (([2] ++ toBytesBE 4 1 ++ sha256Bytes [104] ++ [104]).take
      HEADER_SIZE).length = HEADER_SIZE ∧
    ([2] ++ toBytesBE 4 1 ++ sha256Bytes [104] ++ [104]).take HEADER_SIZE =
      [2] ++ toBytesBE 4 1 ++ sha256Bytes [104] ∧
    headerUnpack (([2] ++ toBytesBE 4 1 ++ sha256Bytes [104] ++
        [104]).take HEADER_SIZE) = some (2, 1, sha256Bytes [104]) ∧
    ([2] ++ toBytesBE 4 1 ++ sha256Bytes [104] ++ [104]).drop HEADER_SIZE =
      [104] :=
  C6_packet_wire_invariant 2 [104]
    ([2] ++ toBytesBE 4 1 ++ sha256Bytes [104] ++ [104])
    (by decide) (by decide) (by rfl)

/-- C3: a well-formed packet declaring payload length 0, whose hash field
is the SHA-256 digest of the empty byte string, is rejected by
`receive_message` with `ConnectionClosed` instead of being returned as a
valid `(type, empty payload)` message: `_recv_all` legitimately returns
the empty byte string for a zero-byte read, but the guard
`if not payload_data` treats that empty result like a closed socket. -/
theorem C3_zero_length_frame_rejected :
    receive_message ([255, 0, 0, 0, 0] ++ sha256Bytes []) =
      .error (.connectionClosed "Socket closed while reading payload.") := by
  rw [receive_message_eq _ (by decide)]
  decide

/-- C1 counterexample: a header declaring a payload of
`MAX_PAYLOAD_SIZE + 1` bytes is not rejected as oversized —
`receive_message` goes on to read the payload and, the stream ending after
the header, fails with the payload-read `ConnectionClosed` rather than any
size-limit error. -/
theorem C1_counterexample_no_size_rejection :
    receive_message ([1] ++ toBytesBE 4 (MAX_PAYLOAD_SIZE + 1) ++
        List.replicate 32 0) =
      .error (.connectionClosed "Socket closed while reading payload.") := by
  rw [receive_message_eq _ (by decide)]
  decide

/-- C1 (amended): `receive_message` never compares the declared payload
length against `MAX_PAYLOAD_SIZE` (which no code reads) and defines no
`PayloadTooLarge` error; for any declared length above the limit it
proceeds to read the payload, so a header-only stream fails with the
payload-read `ConnectionClosed`. -/
theorem C1_no_max_payload_check (t size : Nat) (hash : List Nat)
    (ht : t < 256) (hsz : size < 4294967296) (hh : hash.length = 32)
    (hbig : MAX_PAYLOAD_SIZE < size) :
    receive_message ([t] ++ toBytesBE 4 size ++ hash) =
      .error (.connectionClosed "Socket closed while reading payload.") := by
  have h4 := toBytesBE_length 4 size
  have hlen : ([t] ++ toBytesBE 4 size ++ hash).length = HEADER_SIZE := by
    simp [h4, hh, HEADER_SIZE]
  rw [receive_message_eq _ (le_of_eq hlen.symm)]
  have htake : ([t] ++ toBytesBE 4 size ++ hash).take HEADER_SIZE =
      [t] ++ toBytesBE 4 size ++ hash := by
    rw [← hlen, List.take_length]
  have hdrop : ([t] ++ toBytesBE 4 size ++ hash).drop HEADER_SIZE = [] := by
    apply List.drop_eq_nil_of_le
    omega
  have hA : [t] ++ toBytesBE 4 size ++ hash =
      t :: (toBytesBE 4 size ++ hash) := by simp
  have hsz4 : (([t] ++ toBytesBE 4 size ++ hash).drop 1).take 4 =
      toBytesBE 4 size := by
    rw [hA]
    exact List.take_left' h4
  rw [htake, hsz4, fromBytesBE_toBytesBE4 _ hsz, hdrop]
  rw [if_pos (Or.inr (by simp [MAX_PAYLOAD_SIZE] at hbig ⊢; omega))]

/-- C1 witness: the amended behaviour at the concrete oversized length
`MAX_PAYLOAD_SIZE + 1`. -/
theorem C1_no_max_payload_check_witness :
    receive_message ([2] ++ toBytesBE 4 (MAX_PAYLOAD_SIZE + 1) ++
        List.replicate 32 17) =
      .error (.connectionClosed "Socket closed while reading payload.") :=
  C1_no_max_payload_check 2 (MAX_PAYLOAD_SIZE + 1) (List.replicate 32 17)
    (by decide) (by decide) (by decide) (by decide)

/-- C2 counterexample: a frame whose hash field (32 zero bytes) does not
match its payload `[65]` makes `receive_message` raise `IntegrityError`,
which the client's inner receive loop does not catch: the step ends the
session instead of dropping the message and continuing on the same
connection. -/
theorem C2_counterexample_integrity_ends_session :
    clientStep cGood ([1] ++ toBytesBE 4 1 ++ List.replicate 32 0 ++ [65]) =
      .sessionEnd (.integrityError "Payload hash verification failed.") ∧
    (clientStep cGood ([1] ++ toBytesBE 4 1 ++ List.replicate 32 0 ++
      [65])).continuesSession = false := by
  have hrecv : receive_message ([1] ++ toBytesBE 4 1 ++
      List.replicate 32 0 ++ [65]) =
      .error (.integrityError "Payload hash verification failed.") := by
    rw [receive_message_eq _ (by decide)]
    decide
  constructor
  · simp only [clientStep]
    rw [hrecv]
  · simp only [clientStep, StepResult.continuesSession]
    rw [hrecv]

/-- C2 (amended): a payload-hash mismatch raises `IntegrityError`, which
is session-fatal in the client engine: the offending message is dropped,
but instead of continuing to read on the same connection the engine emits
`Disconnected` with the error text, sleeps the backoff, closes the socket
and reconnects. -/
theorem C2_integrity_mismatch_session_fatal (mac m : String) (c : Cipher)
    (s : List Nat) (h : (runSession c s).2 = .integrityError m) :
    clientIteration mac c none s =
      { events := [.connecting mac, .connected mac,
                   .disconnected ("Retry: " ++ m)]
        delivered := (runSession c s).1
        slept := true, sockClosed := true } ∧
    (∀ e, receive_message s = .error e →
      (clientStep c s).continuesSession = false) := by
  constructor
  · rcases hrs : runSession c s with ⟨msgs, err⟩
    rw [hrs] at h
    simp only at h
    subst h
    simp [clientIteration, hrs, RecvError.text]
  · intro e he
    simp [clientStep, he, StepResult.continuesSession]

/-- C2 witness: the session-fatal handling at the concrete mismatched
frame under `cGood`. -/
theorem C2_integrity_mismatch_session_fatal_witness :
    clientIteration "M" cGood none
        ([1] ++ toBytesBE 4 1 ++ List.replicate 32 0 ++ [65]) =
      { events := [.connecting "M", .connected "M",
                   .disconnected "Retry: Payload hash verification failed."]
        delivered := (runSession cGood
          ([1] ++ toBytesBE 4 1 ++ List.replicate 32 0 ++ [65])).1
        slept := true, sockClosed := true } ∧
    (∀ e, receive_message ([1] ++ toBytesBE 4 1 ++ List.replicate 32 0 ++
        [65]) = .error e →
      (clientStep cGood ([1] ++ toBytesBE 4 1 ++ List.replicate 32 0 ++
        [65])).continuesSession = false) := by
  have hrecv : receive_message ([1] ++ toBytesBE 4 1 ++
      List.replicate 32 0 ++ [65]) =
      .error (.integrityError "Payload hash verification failed.") := by
    rw [receive_message_eq _ (by decide)]
    decide
  exact C2_integrity_mismatch_session_fatal "M"
    "Payload hash verification failed." cGood
    ([1] ++ toBytesBE 4 1 ++ List.replicate 32 0 ++ [65])
    (by rw [runSession_error hrecv])

/-- C7 counterexample: a peer that accepts and then immediately closes the
connection raises `ConnectionClosed`, whose dedicated handler only logs:
while running, this failure produces no `Disconnected` status event and no
backoff sleep, contradicting the claim that every failure does both. -/
theorem C7_counterexample_closed_without_backoff :
    clientIteration "AA" cGood none [] =
      { events := [.connecting "AA", .connected "AA"]
        delivered := [], slept := false, sockClosed := true } ∧
    hasDisconnected (clientIteration "AA" cGood none []).events = false := by
  have hrecv : receive_message ([] : List Nat) =
      .error (.connectionClosed "Socket closed while reading header.") :=
    receive_message_short [] (by decide)
  have hrs := runSession_error (c := cGood) hrecv
  constructor
  · simp [clientIteration, hrs]
  · simp [clientIteration, hrs, hasDisconnected]

/-- C7 (amended): the retry loop is unbounded and exits only through
`stop()`, the socket is closed after every attempt, and a `Disconnected`
event plus the fixed backoff sleep accompany connect failures and decode
(integrity/header) errors — but not `ConnectionClosed` during receive,
whose handler only logs and retries immediately. -/
theorem C7_retry_loop_behaviour (mac e m : String) (c : Cipher)
    (s : List Nat) :
    (clientIteration mac c (some e) s =
      { events := [.connecting mac, .disconnected ("Retry: " ++ e)]
        delivered := [], slept := true, sockClosed := true }) ∧
    ((runSession c s).2 = .integrityError m ∨
        (runSession c s).2 = .protocolError m →
      hasDisconnected (clientIteration mac c none s).events = true ∧
      (clientIteration mac c none s).slept = true ∧
      (clientIteration mac c none s).sockClosed = true) ∧
    ((runSession c s).2 = .connectionClosed m →
      hasDisconnected (clientIteration mac c none s).events = false ∧
      (clientIteration mac c none s).slept = false ∧
      (clientIteration mac c none s).sockClosed = true) ∧
    (∀ inputs : List IterInput, (∀ i ∈ inputs, i.stopDuring = false) →
      (clientRun mac c inputs).length = inputs.length) ∧
    (∀ (i : IterInput) (rest : List IterInput), i.stopDuring = true →
      clientRun mac c (i :: rest) =
        [clientIteration mac c i.connectErr i.stream]) := by
  refine ⟨rfl, ?_, ?_, ?_, ?_⟩
  · intro hcase
    rcases hrs : runSession c s with ⟨msgs, err⟩
    rcases hcase with h | h <;>
      · rw [hrs] at h
        simp only at h
        subst h
        simp [clientIteration, hrs, hasDisconnected]
  · intro h
    rcases hrs : runSession c s with ⟨msgs, err⟩
    rw [hrs] at h
    simp only at h
    subst h
    simp [clientIteration, hrs, hasDisconnected]
  · intro inputs
    induction inputs with
    | nil => intro _; rfl
    | cons i rest ih =>
      intro hns
      have hi : i.stopDuring = false := hns i (by simp)
      simp only [clientRun, hi, Bool.false_eq_true, if_false,
        List.length_cons]
      rw [ih (fun j hj => hns j (by simp [hj]))]
  · intro i rest hstop
    simp [clientRun, hstop]

/-- C7 witness: the amended behaviour at concrete inputs — connect
failure with backoff, integrity error with backoff, a two-input run with
no stop performing both iterations, and a stop during the first iteration
ending the loop. -/
theorem C7_retry_loop_behaviour_witness :
    (clientIteration "M" cGood (some "refused")
        ([1] ++ toBytesBE 4 1 ++ List.replicate 32 0 ++ [65]) =
      { events := [.connecting "M", .disconnected "Retry: refused"]
        delivered := [], slept := true, sockClosed := true }) ∧
    hasDisconnected (clientIteration "M" cGood none
      ([1] ++ toBytesBE 4 1 ++ List.replicate 32 0 ++ [65])).events =
        true ∧
    (clientRun "M" cGood
      [⟨none, [], false⟩, ⟨some "refused", [], false⟩]).length = 2 ∧
    clientRun "M" cGood [⟨some "x", [], true⟩, ⟨none, [], false⟩] =
      [clientIteration "M" cGood (some "x") []] := by
  have hrecv : receive_message ([1] ++ toBytesBE 4 1 ++
      List.replicate 32 0 ++ [65]) =
      .error (.integrityError "Payload hash verification failed.") := by
    rw [receive_message_eq _ (by decide)]
    decide
  have h := C7_retry_loop_behaviour "M" "refused"
    "Payload hash verification failed." cGood
    ([1] ++ toBytesBE 4 1 ++ List.replicate 32 0 ++ [65])
  refine ⟨h.1, ?_, ?_, ?_⟩
  · exact (h.2.1 (Or.inl (by rw [runSession_error hrecv]))).1
  · exact h.2.2.2.1 [⟨none, [], false⟩, ⟨some "refused", [], false⟩]
      (by decide)
  · exact h.2.2.2.2 ⟨some "x", [], true⟩ [⟨none, [], false⟩] rfl

end GhostLink
